import Mathlib

/-!
Verification of the card-generation orchestration in
`src/english_learning_agent.py` (class EnglishLearningAgent).

The Python code is embedded shallowly:

* Python strings are modelled as `List Char` (`PyStr`); the string methods
  used by the source (`strip`, `split`, `startswith`, `replace`) are
  translated character by character below.
* Each outbound remote call either returns a response text or raises; a
  whole behaviour of the two remote clients during one `generate_anki_card`
  call is a `ClientBehavior` record of five `Option PyStr` fields, `none`
  meaning the call raised (any exception class: the source catches all with
  a blanket `except Exception`).  A `some` content with further structure
  missing (for example a `None` message content) also raises inside the
  same `try`, which coincides with the `none` case.
* The prompt strings built by the source only influence the remote call
  whose response is already the behaviour parameter, so they do not appear
  in the embedding.
* `generate_anki_card` can raise `KeyError` at the dictionary access
  `pronunciation_info["phonetic"]` (line 43), so its embedding returns
  `Except String AnkiCard`, with `Except.error` marking an escaped
  exception.
-/

/-- Python strings, modelled as lists of characters. -/
abbrev PyStr := List Char

/-- The ASCII whitespace characters removed by Python `str.strip()`
(space, tab, newline, carriage return, vertical tab, form feed). -/
def pyIsSpace (c : Char) : Bool :=
  c == ' ' || c == '\t' || c == '\n' || c == '\r' || c == '\x0B' || c == '\x0C'

/-- Python `s.strip()`: remove leading and trailing whitespace. -/
def pyStrip (s : PyStr) : PyStr :=
  ((s.dropWhile pyIsSpace).reverse.dropWhile pyIsSpace).reverse

/-- Python `s.split` on the newline character: every newline separates two
(possibly empty) fields, and the empty string splits into `[""]`. -/
def pySplitLines : PyStr → List PyStr
  | [] => [[]]
  | c :: rest =>
    if c = '\n' then [] :: pySplitLines rest
    else
      match pySplitLines rest with
      | [] => [[c]]
      | p :: ps => (c :: p) :: ps

/-- Python `s.startswith(pat)`. -/
def pyStartsWith : PyStr → PyStr → Bool
  | _, [] => true
  | [], _ :: _ => false
  | c :: s, p :: ps => c == p && pyStartsWith s ps

/-- If `pat` begins `s`, return the remainder of `s` after `pat`. -/
def stripPre : PyStr → PyStr → Option PyStr
  | [], s => some s
  | _ :: _, [] => none
  | p :: ps, c :: s => if c == p then stripPre ps s else none

/-- Scanning core of Python `s.replace(old, new)`: replace the leftmost
occurrences of `old` one after the other, never rescanning emitted text.
The fuel, instantiated with the length of the scanned string, only makes
the recursion structural; it never runs out on a nonempty `old`. -/
def pyReplaceFuel (old new : PyStr) : Nat → PyStr → PyStr
  | _, [] => []
  | 0, s => s
  | fuel + 1, c :: s =>
    match old, stripPre old (c :: s) with
    | _ :: _, some rest => new ++ pyReplaceFuel old new fuel rest
    | _, _ => c :: pyReplaceFuel old new fuel s

/-- Python `s.replace(old, new)` for the nonempty patterns used by the
source: every non-overlapping occurrence of `old`, scanned from the left,
is replaced by `new`. -/
def pyReplace (old new s : PyStr) : PyStr :=
  pyReplaceFuel old new s.length s

/-- The label scanned for by `_get_pronunciation` (line 71). -/
def strIPA : PyStr := ("IPA:").toList

/-- The pronunciation placeholder returned on failure (lines 78–80). -/
def strNotAvailable : PyStr := ("Not available").toList

/-- The explanation placeholder (line 178):
the f-string building `Explanation for {expression} not available.` with the expression quoted. -/
def explanationPlaceholder (expression : PyStr) : PyStr :=
  ("Explanation for \u0027").toList ++ expression ++ ("\u0027 not available.").toList

/-- The usage-examples placeholder (line 150):
the f-string building `Example with {expression} not available.` with the expression quoted. -/
def examplePlaceholder (expression : PyStr) : PyStr :=
  ("Example with \u0027").toList ++ expression ++ ("\u0027 not available.").toList

/-- One step of the parsing loop of `_get_pronunciation` (lines 70–72): a
line starting with `IPA:` overwrites the entry with that line, all
occurrences of `IPA:` removed and the result stripped. -/
def scanIPA (acc : Option PyStr) (line : PyStr) : Option PyStr :=
  if pyStartsWith line strIPA then some (pyStrip (pyReplace strIPA [] line)) else acc

/-- Lines 67–74 of `_get_pronunciation` on a successful response: strip the
content, split it into lines and run the scanning loop.  The result models
the returned dictionary, which holds at most the key `phonetic`: `none`
means the dictionary is empty. -/
def parsePronunciation (content : PyStr) : Option PyStr :=
  (pySplitLines (pyStrip content)).foldl scanIPA none

/-- `_get_pronunciation` (lines 49–80): `resp = none` models the remote
call raising, answered by the placeholder dictionary of lines 78–80. -/
def getPronunciation (resp : Option PyStr) : Option PyStr :=
  match resp with
  | some content => parsePronunciation content
  | none => some strNotAvailable

/-- `_generate_explanation` (lines 152–178). -/
def generateExplanation (expression : PyStr) (resp : Option PyStr) : PyStr :=
  match resp with
  | some content => pyStrip content
  | none => explanationPlaceholder expression

/-- `_generate_usage_examples` (lines 123–150): on success (lines 145–146)
strip the content, split into lines, keep the lines whose stripped form is
truthy (nonempty) and return those stripped lines. -/
def generateUsageExamples (expression : PyStr) (resp : Option PyStr) : List PyStr :=
  match resp with
  | some content =>
      ((pySplitLines (pyStrip content)).filter (fun ex => !(pyStrip ex).isEmpty)).map pyStrip
  | none => [examplePlaceholder expression]

/-- `_find_relevant_image` (lines 82–121): two sequential remote calls in
one failure boundary; the image call only happens when the description call
succeeded, and any failure yields `None`. -/
def findRelevantImage (meaningResp imageResp : Option PyStr) : Option PyStr :=
  match meaningResp with
  | none => none
  | some _ =>
    match imageResp with
    | none => none
    | some url => some url

/-- The `AnkiCard` dataclass (lines 12–18). -/
structure AnkiCard where
  expression : PyStr
  phonetic : PyStr
  usage_examples : List PyStr
  explanation : PyStr
  image_url : Option PyStr
  deriving DecidableEq

/-- One behaviour of the two remote clients during a single
`generate_anki_card` call: the outcome of each of the five outbound calls
(`none` = the call raises). -/
structure ClientBehavior where
  pronunciationResp : Option PyStr
  explanationResp : Option PyStr
  examplesResp : Option PyStr
  meaningResp : Option PyStr
  imageResp : Option PyStr
  deriving DecidableEq

/-- `generate_anki_card` (lines 25–47): the four sub-requests are gathered
(the `asyncio.gather` order is irrelevant to the value) and the card is
assembled; the access `pronunciation_info["phonetic"]` at line 43 raises
`KeyError` when the dictionary is empty, modelled by `Except.error`. -/
def generate_anki_card (expression : PyStr) (b : ClientBehavior) : Except String AnkiCard :=
  match getPronunciation b.pronunciationResp with
  | none => Except.error ("KeyError: phonetic")
  | some phonetic =>
      Except.ok
        { expression := expression
          phonetic := phonetic
          usage_examples := generateUsageExamples expression b.examplesResp
          explanation := generateExplanation expression b.explanationResp
          image_url := findRelevantImage b.meaningResp b.imageResp }

/-- Number of the five outbound calls that fail under a behaviour. -/
def numFailed (b : ClientBehavior) : Nat :=
  (if b.pronunciationResp = none then 1 else 0) +
  (if b.explanationResp = none then 1 else 0) +
  (if b.examplesResp = none then 1 else 0) +
  (if b.meaningResp = none then 1 else 0) +
  (if b.imageResp = none then 1 else 0)

/-- The specification-side reading of the usage-examples parse: split the raw
response into lines, trim each line, and discard the blank ones, keeping
the original order. -/
def cleanLines (s : PyStr) : List PyStr :=
  ((pySplitLines s).map pyStrip).filter (fun x => !x.isEmpty)

/-- Apply a function to the last element of a list (identity on `[]`). -/
def modLast (f : PyStr → PyStr) : List PyStr → List PyStr
  | [] => []
  | [a] => [f a]
  | a :: b :: rest => a :: modLast f (b :: rest)

/-- Behaviour of the counterexample to C3: every call succeeds, but the
texts are blank or consist of the bare label. -/
def cexB3 : ClientBehavior :=
  ⟨some (("IPA:").toList), some (("").toList), some ((" \n ").toList),
    some (("a sketch").toList), some (("https://img.example/3.png").toList)⟩

/-- Card actually produced in the counterexample to C3. -/
def cexCard3 : AnkiCard :=
  ⟨("hi").toList, [], [], [], some (("https://img.example/3.png").toList)⟩

/-- Behaviour for the witness of C3. -/
def wB3 : ClientBehavior :=
  ⟨some (("IPA: /a/").toList), some ((" def ").toList), some (("one\ntwo").toList),
    none, some (("https://img.example/w3.png").toList)⟩

/-- Card produced under `wB3`. -/
def wCard3 : AnkiCard :=
  ⟨("hi").toList, ("/a/").toList, [("one").toList, ("two").toList], ("def").toList, none⟩

/-- Behaviour of the counterexample to C4: exactly one transport call (the
usage-examples one) fails; every other call succeeds, but the successful
pronunciation response has no `IPA:` line. -/
def cexB4 : ClientBehavior :=
  ⟨some (("no transcription available").toList), some (("to review something").toList),
    none, some (("a person reading notes").toList),
    some (("https://img.example/4.png").toList)⟩

/-- Behaviour of the counterexample to C7: the visual-description call
succeeds and the image-generation call fails, but the successful
pronunciation response has no `IPA:` line. -/
def cexB7 : ClientBehavior :=
  ⟨some (("hard to say").toList), some (("to meet by chance").toList),
    some (("I ran into an old friend.").toList),
    some (("two people meeting on a street").toList), none⟩

/-- Behaviour of the counterexample to C8: the usage-examples call fails,
but the successful pronunciation response has no `IPA:` line. -/
def cexB8 : ClientBehavior :=
  ⟨some (("cannot transcribe that").toList), some (("to stop working").toList),
    none, none, none⟩

-- Sanity checks of the embedding on concrete values (kept as examples).
example : pyStrip (("  a b  ").toList) = ("a b").toList := by decide
example : pySplitLines (("a\n\nb").toList) = [("a").toList, [], ("b").toList] := by decide
example : pyReplace strIPA [] (("IPA: aIPA:b").toList) = (" ab").toList := by decide
example : parsePronunciation (("IPA: /x/").toList) = some (("/x/").toList) := by decide
example : parsePronunciation (("nothing").toList) = none := by decide
example :
    generate_anki_card (("hi").toList)
      ⟨some (("IPA: /x/").toList), none, none, none, none⟩ =
    Except.ok ⟨("hi").toList, ("/x/").toList,
      [examplePlaceholder (("hi").toList)],
      explanationPlaceholder (("hi").toList), none⟩ := by rfl

/-! ### Helper lemmas about the embedded string operations -/

theorem pySplitLines_ne_nil (s : PyStr) : pySplitLines s ≠ [] := by
  induction s with
  | nil => simp [pySplitLines]
  | cons c rest ih =>
    by_cases hc : c = '\n'
    · simp [pySplitLines, hc]
    · cases h : pySplitLines rest with
      | nil => simp [pySplitLines, hc, h]
      | cons p ps => simp [pySplitLines, hc, h]

theorem pySplitLines_newline (s : PyStr) :
    pySplitLines ('\n' :: s) = [] :: pySplitLines s := by
  simp [pySplitLines]

theorem pySplitLines_cons (c : Char) (s : PyStr) (hc : ¬ c = '\n')
    (p : PyStr) (ps : List PyStr) (hs : pySplitLines s = p :: ps) :
    pySplitLines (c :: s) = (c :: p) :: ps := by
  simp [pySplitLines, hc, hs]

theorem pyStrip_nil : pyStrip [] = [] := rfl

theorem pyStrip_cons_space (c : Char) (p : PyStr) (h : pyIsSpace c = true) :
    pyStrip (c :: p) = pyStrip p := by
  simp [pyStrip, List.dropWhile_cons, h]

theorem dropWhile_append_char (p : Char → Bool) (l m : PyStr) :
    (l ++ m).dropWhile p =
      if (l.dropWhile p).isEmpty then m.dropWhile p else l.dropWhile p ++ m := by
  induction l with
  | nil => simp
  | cons a l ih =>
    by_cases h : p a
    · simpa [List.dropWhile_cons, h] using ih
    · simp [List.dropWhile_cons, h]

theorem pyStrip_append_space (l : PyStr) (c : Char) (h : pyIsSpace c = true) :
    pyStrip (l ++ [c]) = pyStrip l := by
  unfold pyStrip
  rw [dropWhile_append_char]
  by_cases h1 : (l.dropWhile pyIsSpace).isEmpty
  · have h1x : l.dropWhile pyIsSpace = ([] : PyStr) := by
      simpa using h1
    simp [h1, h1x, List.dropWhile_cons, h]
  · simp [h1, List.reverse_append, List.dropWhile_cons, h]

theorem pySplitLines_append_newline (s : PyStr) :
    pySplitLines (s ++ ['\n']) = pySplitLines s ++ [[]] := by
  induction s with
  | nil => simp [pySplitLines]
  | cons c rest ih =>
    by_cases hc : c = '\n'
    · subst hc
      rw [List.cons_append, pySplitLines_newline, pySplitLines_newline, ih]
      simp
    · obtain ⟨p, ps, hps⟩ := List.exists_cons_of_ne_nil (pySplitLines_ne_nil rest)
      have h2 : pySplitLines (rest ++ ['\n']) = p :: (ps ++ [[]]) := by
        rw [ih, hps]; simp
      rw [List.cons_append, pySplitLines_cons c _ hc _ _ h2,
        pySplitLines_cons c _ hc _ _ hps]
      simp

theorem pySplitLines_append_char (s : PyStr) (c : Char) (hc : ¬ c = '\n') :
    pySplitLines (s ++ [c]) = modLast (fun l => l ++ [c]) (pySplitLines s) := by
  induction s with
  | nil =>
    rw [List.nil_append, pySplitLines_cons c [] hc [] [] rfl]
    simp [modLast, pySplitLines]
  | cons d rest ih =>
    by_cases hd : d = '\n'
    · subst hd
      rw [List.cons_append, pySplitLines_newline, pySplitLines_newline, ih]
      obtain ⟨p, ps, hps⟩ := List.exists_cons_of_ne_nil (pySplitLines_ne_nil rest)
      rw [hps]
      cases ps with
      | nil => simp [modLast]
      | cons q qs => simp [modLast]
    · obtain ⟨p, ps, hps⟩ := List.exists_cons_of_ne_nil (pySplitLines_ne_nil rest)
      cases ps with
      | nil =>
        have h2 : pySplitLines (rest ++ [c]) = [p ++ [c]] := by
          rw [ih, hps]; simp [modLast]
        rw [List.cons_append, pySplitLines_cons d _ hd _ _ h2,
          pySplitLines_cons d _ hd _ _ hps]
        simp [modLast]
      | cons q qs =>
        have h2 : pySplitLines (rest ++ [c]) = p :: modLast (fun l => l ++ [c]) (q :: qs) := by
          rw [ih, hps]; simp [modLast]
        rw [List.cons_append, pySplitLines_cons d _ hd _ _ h2,
          pySplitLines_cons d _ hd _ _ hps]
        simp [modLast]

theorem map_pyStrip_modLast (c : Char) (h : pyIsSpace c = true) (L : List PyStr) :
    (modLast (fun l => l ++ [c]) L).map pyStrip = L.map pyStrip := by
  induction L with
  | nil => rfl
  | cons a L ih =>
    cases L with
    | nil => simp [modLast, pyStrip_append_space a c h]
    | cons b rest => simpa [modLast] using ih

theorem cleanLines_newline_cons (s : PyStr) :
    cleanLines ('\n' :: s) = cleanLines s := by
  simp [cleanLines, pySplitLines_newline, pyStrip_nil]

theorem cleanLines_cons_space (c : Char) (s : PyStr) (h : pyIsSpace c = true) :
    cleanLines (c :: s) = cleanLines s := by
  by_cases hc : c = '\n'
  · subst hc; exact cleanLines_newline_cons s
  · obtain ⟨p, ps, hps⟩ := List.exists_cons_of_ne_nil (pySplitLines_ne_nil s)
    rw [cleanLines, pySplitLines_cons c s hc p ps hps]
    rw [cleanLines, hps]
    simp [pyStrip_cons_space c p h]

theorem cleanLines_dropWhile (s : PyStr) :
    cleanLines (s.dropWhile pyIsSpace) = cleanLines s := by
  induction s with
  | nil => rfl
  | cons c rest ih =>
    by_cases h : pyIsSpace c
    · rw [List.dropWhile_cons]
      simp only [h, if_true]
      rw [ih, cleanLines_cons_space c rest h]
    · rw [List.dropWhile_cons]
      simp [h]

theorem cleanLines_append_newline (s : PyStr) :
    cleanLines (s ++ ['\n']) = cleanLines s := by
  simp [cleanLines, pySplitLines_append_newline, pyStrip_nil]

theorem cleanLines_append_space (s : PyStr) (c : Char) (h : pyIsSpace c = true) :
    cleanLines (s ++ [c]) = cleanLines s := by
  by_cases hc : c = '\n'
  · subst hc; exact cleanLines_append_newline s
  · rw [cleanLines, pySplitLines_append_char s c hc, map_pyStrip_modLast c h, cleanLines]

theorem cleanLines_rev_dropWhile (y : PyStr) :
    cleanLines ((y.dropWhile pyIsSpace).reverse) = cleanLines y.reverse := by
  induction y with
  | nil => rfl
  | cons c rest ih =>
    by_cases h : pyIsSpace c
    · rw [List.dropWhile_cons]
      simp only [h, if_true]
      rw [ih, List.reverse_cons, cleanLines_append_space rest.reverse c h]
    · rw [List.dropWhile_cons]
      simp [h]

/-- Central parsing fact: the outer `strip` applied by the source before
splitting (lines 67 and 145) does not change the split-trim-filter result. -/
theorem cleanLines_pyStrip (s : PyStr) : cleanLines (pyStrip s) = cleanLines s := by
  unfold pyStrip
  rw [cleanLines_rev_dropWhile ((s.dropWhile pyIsSpace).reverse), List.reverse_reverse,
    cleanLines_dropWhile]

theorem filter_strip_map (L : List PyStr) :
    (L.filter (fun ex => !(pyStrip ex).isEmpty)).map pyStrip =
      (L.map pyStrip).filter (fun x => !x.isEmpty) := by
  induction L with
  | nil => rfl
  | cons a L ih =>
    by_cases h : (pyStrip a).isEmpty
    · simp [h, ih]
    · simp [h, ih]

/-- The usage-examples parse of the source equals the specification-side
split-trim-filter of the raw response. -/
theorem usageExamples_eq_cleanLines (e t : PyStr) :
    generateUsageExamples e (some t) = cleanLines t := by
  rw [generateUsageExamples, filter_strip_map]
  exact cleanLines_pyStrip t

/-! ### Helper lemmas about the pronunciation scan and the generator -/

theorem foldl_scanIPA_no_match (ls : List PyStr) (acc : Option PyStr)
    (h : ∀ m ∈ ls, pyStartsWith m strIPA = false) :
    ls.foldl scanIPA acc = acc := by
  induction ls generalizing acc with
  | nil => rfl
  | cons l ls ih =>
    have hl : pyStartsWith l strIPA = false := h l (by simp)
    rw [List.foldl_cons, scanIPA, hl]
    simp only [Bool.false_eq_true, if_false]
    exact ih acc (fun m hm => h m (by simp [hm]))

theorem parsePronunciation_last (t l : PyStr) (pre post : List PyStr)
    (hsplit : pySplitLines (pyStrip t) = pre ++ l :: post)
    (hl : pyStartsWith l strIPA = true)
    (hpost : ∀ m ∈ post, pyStartsWith m strIPA = false) :
    parsePronunciation t = some (pyStrip (pyReplace strIPA [] l)) := by
  rw [parsePronunciation, hsplit, List.foldl_append, List.foldl_cons]
  rw [foldl_scanIPA_no_match post _ hpost]
  rw [scanIPA, hl]
  simp

theorem generate_ok (e : PyStr) (b : ClientBehavior) (v : PyStr)
    (hv : getPronunciation b.pronunciationResp = some v) :
    generate_anki_card e b =
      Except.ok
        ⟨e, v, generateUsageExamples e b.examplesResp,
          generateExplanation e b.explanationResp,
          findRelevantImage b.meaningResp b.imageResp⟩ := by
  unfold generate_anki_card
  rw [hv]

theorem generate_err (e : PyStr) (b : ClientBehavior)
    (hv : getPronunciation b.pronunciationResp = none) :
    generate_anki_card e b = Except.error ("KeyError: phonetic") := by
  unfold generate_anki_card
  rw [hv]

/-! ### Claims -/

/-- C1: the claim says `generate_anki_card` returns a Card and never raises,
for every expression and every behaviour of the remote clients.  The code
violates this: when the pronunciation call succeeds with a response that has
no line starting with `IPA:`, `_get_pronunciation` returns an empty
dictionary and line 43 raises `KeyError`.  This theorem evaluates the
generator at such a behaviour (all five remote calls succeed). -/
theorem C1_no_ipa_line_raises :
    generate_anki_card (("hello").toList)
      ⟨some (("It is pronounced heh-loh").toList),
        some (("A common greeting.").toList),
        some (("Hello there!\nWell, hello!").toList),
        some (("a waving person").toList),
        some (("https://img.example/1.png").toList)⟩ =
    Except.error ("KeyError: phonetic") := rfl

/-- C2: the claim says that when the pronunciation call succeeds but its
response has no `IPA:` line, the returned Card has the placeholder phonetic
`Not available`.  The code instead raises `KeyError` and returns no Card at
all: the placeholder is only produced when the call itself raises.  This
theorem evaluates the generator at such a behaviour. -/
theorem C2_missing_label_raises_instead_of_placeholder :
    generate_anki_card (("bring up").toList)
      ⟨some (("The transcription is unavailable.").toList),
        some (("to mention a topic").toList),
        some (("Do not bring it up now.").toList),
        some (("a speech bubble").toList),
        some (("https://img.example/2.png").toList)⟩ =
    Except.error ("KeyError: phonetic") := rfl

/-- C5: if the pronunciation response text is exactly `IPA: /həˈloʊ/`, the
returned Card has phonetic `/həˈloʊ/` (label stripped, whitespace trimmed),
whatever the expression and the other calls do. -/
theorem C5_literal_ipa_line (e : PyStr) (b : ClientBehavior)
    (h : b.pronunciationResp = some (("IPA: /həˈloʊ/").toList)) :
    ∃ c, generate_anki_card e b = Except.ok c ∧
      c.phonetic = ("/həˈloʊ/").toList := by
  have hv : getPronunciation b.pronunciationResp = some (("/həˈloʊ/").toList) := by
    rw [h]; rfl
  exact ⟨_, generate_ok e b _ hv, rfl⟩

/-- Witness for C5 at a concrete input. -/
theorem C5_witness :
    ∃ c, generate_anki_card (("hello").toList)
        ⟨some (("IPA: /həˈloʊ/").toList), none, none, none, none⟩ = Except.ok c ∧
      c.phonetic = ("/həˈloʊ/").toList :=
  C5_literal_ipa_line (("hello").toList)
    ⟨some (("IPA: /həˈloʊ/").toList), none, none, none, none⟩ rfl

/-- C6: for every successful usage-examples response, the parsed examples
are the response split into lines, each trimmed, with blank lines dropped,
in the original order; and in particular a response of three lines with
surrounding whitespace plus one blank line yields exactly the three trimmed
lines in order. -/
theorem C6_usage_examples_split :
    (∀ e t, generateUsageExamples e (some t) = cleanLines t) ∧
    generateUsageExamples (("word").toList)
        (some (("  One ripe apple. \n Two ripe apples. \n\n  Three ripe apples.  ").toList)) =
      [("One ripe apple.").toList, ("Two ripe apples.").toList,
        ("Three ripe apples.").toList] := by
  refine ⟨usageExamples_eq_cleanLines, ?_⟩
  decide

/-- C9 (implicit): when a successful pronunciation response has several
lines starting with `IPA:`, the last such line wins, because each matching
line overwrites the previously stored value.  Stated for any line `l` that
is the last match of the split response. -/
theorem C9_last_ipa_line_wins (e : PyStr) (b : ClientBehavior) (t l : PyStr)
    (pre post : List PyStr)
    (ht : b.pronunciationResp = some t)
    (hsplit : pySplitLines (pyStrip t) = pre ++ l :: post)
    (hl : pyStartsWith l strIPA = true)
    (hpost : ∀ m ∈ post, pyStartsWith m strIPA = false) :
    ∃ c, generate_anki_card e b = Except.ok c ∧
      c.phonetic = pyStrip (pyReplace strIPA [] l) := by
  have hv : getPronunciation b.pronunciationResp =
      some (pyStrip (pyReplace strIPA [] l)) := by
    rw [ht]
    show parsePronunciation t = _
    exact parsePronunciation_last t l pre post hsplit hl hpost
  exact ⟨_, generate_ok e b _ hv, rfl⟩

/-- Witness for C9: a response with two `IPA:` lines stores the second. -/
theorem C9_witness :
    ∃ c, generate_anki_card (("ok").toList)
        ⟨some (("IPA: /a/\nIPA: /b/").toList), none, none, none, none⟩ = Except.ok c ∧
      c.phonetic = ("/b/").toList := by
  obtain ⟨c, h1, h2⟩ :=
    C9_last_ipa_line_wins (("ok").toList)
      ⟨some (("IPA: /a/\nIPA: /b/").toList), none, none, none, none⟩
      (("IPA: /a/\nIPA: /b/").toList) (("IPA: /b/").toList)
      [("IPA: /a/").toList] [] rfl (by decide) (by decide) (by simp)
  exact ⟨c, h1, h2.trans (by decide)⟩

/-- C10 (implicit): the stored phonetic value is the matching line with
every occurrence of `IPA:` removed (Python `replace`) and then trimmed, not
merely the remainder after the leading label; in particular an occurrence
of `IPA:` inside the transcription text is deleted too. -/
theorem C10_replace_removes_all_occurrences :
    (∀ (e : PyStr) (b : ClientBehavior) (l : PyStr),
        b.pronunciationResp = some l →
        pySplitLines (pyStrip l) = [pyStrip l] →
        pyStartsWith (pyStrip l) strIPA = true →
        ∃ c, generate_anki_card e b = Except.ok c ∧
          c.phonetic = pyStrip (pyReplace strIPA [] (pyStrip l))) ∧
    (∀ (e : PyStr) (b : ClientBehavior),
        b.pronunciationResp = some (("IPA: aIPA:b").toList) →
        ∃ c, generate_anki_card e b = Except.ok c ∧
          c.phonetic = ("ab").toList ∧ c.phonetic ≠ ("aIPA:b").toList) := by
  constructor
  · intro e b l hb hsplit hl
    have hv : getPronunciation b.pronunciationResp =
        some (pyStrip (pyReplace strIPA [] (pyStrip l))) := by
      rw [hb]
      show parsePronunciation l = _
      rw [parsePronunciation, hsplit, List.foldl_cons, scanIPA, hl]
      simp
    exact ⟨_, generate_ok e b _ hv, rfl⟩
  · intro e b hb
    have hv : getPronunciation b.pronunciationResp = some (("ab").toList) := by
      rw [hb]; decide
    refine ⟨_, generate_ok e b _ hv, rfl, ?_⟩
    show ("ab").toList ≠ ("aIPA:b").toList
    decide

/-- Witness for C10: an inner `IPA:` occurrence is deleted as well. -/
theorem C10_witness :
    ∃ c, generate_anki_card (("x").toList)
        ⟨some (("IPA: aIPA:b").toList), none, none, none, none⟩ = Except.ok c ∧
      c.phonetic = ("ab").toList ∧ c.phonetic ≠ ("aIPA:b").toList :=
  C10_replace_removes_all_occurrences.2 (("x").toList)
    ⟨some (("IPA: aIPA:b").toList), none, none, none, none⟩ rfl

/-- C3 counterexample: with every remote call succeeding on blank or
label-only texts, the returned Card has empty phonetic, empty explanation
and an empty example list — refuting the claimed non-emptiness of these
fields (the claim is wrong on the code even when a Card is returned). -/
theorem C3_counterexample :
    generate_anki_card (("hi").toList) cexB3 = Except.ok cexCard3 ∧
    cexCard3.phonetic = [] ∧ cexCard3.explanation = [] ∧
    cexCard3.usage_examples = [] :=
  ⟨rfl, rfl, rfl, rfl⟩

/-- C3 as amended: for every non-empty input string and every behaviour,
whenever `generate_anki_card` returns a Card, its expression equals the
input string unmodified and every element of its usage-examples list is a
non-empty string (the phonetic, explanation and the list itself may be
empty). -/
theorem C3_card_invariants (e : PyStr) (b : ClientBehavior) (hne : e ≠ [])
    (c : AnkiCard) (hc : generate_anki_card e b = Except.ok c) :
    c.expression = e ∧ ∀ s ∈ c.usage_examples, s ≠ [] := by
  cases hv : getPronunciation b.pronunciationResp with
  | none =>
    rw [generate_err e b hv] at hc
    exact absurd hc (by simp)
  | some v =>
    rw [generate_ok e b v hv] at hc
    injection hc with hcc
    subst hcc
    refine ⟨rfl, ?_⟩
    show ∀ s ∈ generateUsageExamples e b.examplesResp, s ≠ []
    cases hx : b.examplesResp with
    | none =>
      intro s hs
      rw [generateUsageExamples] at hs
      simp only [List.mem_singleton] at hs
      subst hs
      have hE : examplePlaceholder e =
          'E' :: (("xample with \u0027").toList ++ e ++ ("\u0027 not available.").toList) := rfl
      rw [hE]
      simp
    | some t =>
      intro s hs
      rw [generateUsageExamples] at hs
      obtain ⟨x, hxmem, hxeq⟩ := List.mem_map.mp hs
      have hxp := (List.mem_filter.mp hxmem).2
      rw [← hxeq]
      intro h0
      rw [h0] at hxp
      simp at hxp

/-- Witness for the amended C3 at a concrete input. -/
theorem C3_witness :
    wCard3.expression = ("hi").toList ∧ ∀ s ∈ wCard3.usage_examples, s ≠ [] :=
  C3_card_invariants (("hi").toList) wB3 (by decide) wCard3 (by rfl)

/-- C4 counterexample: under `cexB4` exactly one call fails, yet no Card is
returned at all (the generator raises `KeyError`), so the failed
sub-request cannot take its placeholder and the claim fails as stated. -/
theorem C4_counterexample :
    numFailed cexB4 = 1 ∧
    generate_anki_card (("go over").toList) cexB4 =
      Except.error ("KeyError: phonetic") :=
  ⟨rfl, rfl⟩

/-- C4 as amended: if exactly one of the five outbound calls fails, and the
pronunciation step yields a phonetic entry (its call failed, or its
response has an `IPA:` line), then a Card is returned in which the failed
call yields exactly its documented placeholder (or an unset image) and
every other field is the value computed from its own successful
response. -/
theorem C4_failure_isolation (e : PyStr) (b : ClientBehavior)
    (hone : numFailed b = 1)
    (hpron : getPronunciation b.pronunciationResp ≠ none) :
    ∃ c, generate_anki_card e b = Except.ok c ∧
      c.expression = e ∧
      (b.pronunciationResp = none → c.phonetic = strNotAvailable) ∧
      (∀ t, b.pronunciationResp = some t → parsePronunciation t = some c.phonetic) ∧
      (b.explanationResp = none → c.explanation = explanationPlaceholder e) ∧
      (∀ t, b.explanationResp = some t → c.explanation = pyStrip t) ∧
      (b.examplesResp = none → c.usage_examples = [examplePlaceholder e]) ∧
      (∀ t, b.examplesResp = some t → c.usage_examples = cleanLines t) ∧
      ((b.meaningResp = none ∨ b.imageResp = none) → c.image_url = none) ∧
      (∀ m u, b.meaningResp = some m → b.imageResp = some u →
        c.image_url = some u) := by
  cases hv : getPronunciation b.pronunciationResp with
  | none => exact absurd hv hpron
  | some v =>
    refine ⟨_, generate_ok e b v hv, rfl, ?_, ?_, ?_, ?_, ?_, ?_, ?_, ?_⟩
    · intro h
      rw [h] at hv
      exact (Option.some.inj hv).symm
    · intro t ht
      rw [ht] at hv
      exact hv
    · intro h
      show generateExplanation e b.explanationResp = explanationPlaceholder e
      rw [h]
      rfl
    · intro t ht
      show generateExplanation e b.explanationResp = pyStrip t
      rw [ht]
      rfl
    · intro h
      show generateUsageExamples e b.examplesResp = [examplePlaceholder e]
      rw [h]
      rfl
    · intro t ht
      show generateUsageExamples e b.examplesResp = cleanLines t
      rw [ht]
      exact usageExamples_eq_cleanLines e t
    · intro h
      show findRelevantImage b.meaningResp b.imageResp = none
      cases h with
      | inl hm => rw [hm]; rfl
      | inr hi =>
        rw [hi]
        cases b.meaningResp with
        | none => rfl
        | some m => rfl
    · intro m u hm hu
      show findRelevantImage b.meaningResp b.imageResp = some u
      rw [hm, hu]
      rfl

/-- Witness for the amended C4 at a concrete input with exactly the
usage-examples call failing. -/
theorem C4_witness :
    ∃ c, generate_anki_card (("hi").toList)
        ⟨some (("IPA: /haɪ/").toList), some (("a greeting").toList), none,
          some (("a waving hand").toList),
          some (("https://img.example/5.png").toList)⟩ = Except.ok c := by
  obtain ⟨c, hc, -⟩ :=
    C4_failure_isolation (("hi").toList)
      ⟨some (("IPA: /haɪ/").toList), some (("a greeting").toList), none,
        some (("a waving hand").toList),
        some (("https://img.example/5.png").toList)⟩
      (by decide) (by decide)
  exact ⟨c, hc⟩

/-- C7 counterexample: under `cexB7` the description step succeeds and the
image step fails, yet no Card is returned at all (the generator raises
`KeyError`), so the claim fails as stated. -/
theorem C7_counterexample :
    generate_anki_card (("run into").toList) cexB7 =
      Except.error ("KeyError: phonetic") := rfl

/-- C7 as amended: if the visual-description call succeeds, the
image-generation call fails, and the pronunciation step yields a phonetic
entry, then the returned Card has image_url unset (None, not a
placeholder) and every other field is exactly what its own sub-request
produced. -/
theorem C7_image_failure_isolated (e : PyStr) (b : ClientBehavior) (m : PyStr)
    (hm : b.meaningResp = some m) (hi : b.imageResp = none)
    (hpron : getPronunciation b.pronunciationResp ≠ none) :
    ∃ c, generate_anki_card e b = Except.ok c ∧
      c.image_url = none ∧
      c.expression = e ∧
      getPronunciation b.pronunciationResp = some c.phonetic ∧
      c.explanation = generateExplanation e b.explanationResp ∧
      c.usage_examples = generateUsageExamples e b.examplesResp := by
  cases hv : getPronunciation b.pronunciationResp with
  | none => exact absurd hv hpron
  | some v =>
    refine ⟨_, generate_ok e b v hv, ?_, rfl, ?_, rfl, rfl⟩
    · show findRelevantImage b.meaningResp b.imageResp = none
      rw [hm, hi]
      rfl
    · rfl

/-- Witness for the amended C7 at a concrete input. -/
theorem C7_witness :
    ∃ c, generate_anki_card (("hi").toList)
        ⟨some (("IPA: /haɪ/").toList), some (("a greeting").toList),
          some (("Hi there!").toList), some (("a sketch of a greeting").toList),
          none⟩ = Except.ok c ∧ c.image_url = none := by
  obtain ⟨c, hc, himg, -⟩ :=
    C7_image_failure_isolated (("hi").toList)
      ⟨some (("IPA: /haɪ/").toList), some (("a greeting").toList),
        some (("Hi there!").toList), some (("a sketch of a greeting").toList),
        none⟩
      (("a sketch of a greeting").toList) rfl rfl (by decide)
  exact ⟨c, hc, himg⟩

/-- C8 counterexample: under `cexB8` the usage-examples call fails, yet no
Card is returned at all (the generator raises `KeyError`) and in
particular usageExamples is not the one-element placeholder list, so the
claim fails as stated. -/
theorem C8_counterexample :
    generate_anki_card (("call it a day").toList) cexB8 =
      Except.error ("KeyError: phonetic") := rfl

/-- C8 as amended: if the usage-examples call fails and the pronunciation
step yields a phonetic entry, then the returned Card has usageExamples
equal to the one-element list holding the placeholder sentence, and that
sentence mentions the input expression (contains it as a substring). -/
theorem C8_examples_failure_placeholder (e : PyStr) (b : ClientBehavior)
    (hx : b.examplesResp = none)
    (hpron : getPronunciation b.pronunciationResp ≠ none) :
    ∃ c, generate_anki_card e b = Except.ok c ∧
      c.usage_examples = [examplePlaceholder e] ∧
      (∃ l r, l ++ e ++ r = examplePlaceholder e) := by
  cases hv : getPronunciation b.pronunciationResp with
  | none => exact absurd hv hpron
  | some v =>
    refine ⟨_, generate_ok e b v hv, ?_,
      ⟨("Example with \u0027").toList, ("\u0027 not available.").toList, rfl⟩⟩
    show generateUsageExamples e b.examplesResp = [examplePlaceholder e]
    rw [hx]
    rfl

/-- Witness for the amended C8 at a concrete input. -/
theorem C8_witness :
    ∃ c, generate_anki_card (("hi").toList)
        ⟨none, none, none, none, none⟩ = Except.ok c ∧
      c.usage_examples = [examplePlaceholder (("hi").toList)] := by
  obtain ⟨c, hc, hu, -⟩ :=
    C8_examples_failure_placeholder (("hi").toList)
      ⟨none, none, none, none, none⟩ rfl (by decide)
  exact ⟨c, hc, hu⟩
